import Mathlib

/-!
Verification development for the release-notes scraper (gcpwatch.py).

The Python source is shallowly embedded: pure functions become Lean
functions, the markup tree (BeautifulSoup) becomes an inductive rose tree,
the datetime timeline is modelled by integers at day granularity
(proleptic-Gregorian ordinals, as produced by date.toordinal in Python),
and fallible code returns Option or Except.  String manipulation is done
on lists of characters so that every definition evaluates inside the
kernel.
-/

/-! Character and string utilities (ASCII-level models of the Python
    primitives used by the scraper). -/

/-- Whitespace test used to model Python str.strip and the regex class
backslash-s on the ASCII inputs the scraper handles. -/
def isSpaceChar (c : Char) : Bool := c = ' ' || c = '\t' || c = '\n' || c = '\r'

/-- Word-character test modelling the regex class backslash-w (ASCII). -/
def isWordChar (c : Char) : Bool := c.isAlpha || c.isDigit || c = '_'

/-- Model of Python str.strip on the character list of a string. -/
def trimChars (cs : List Char) : List Char :=
  ((cs.dropWhile isSpaceChar).reverse.dropWhile isSpaceChar).reverse

/-- Model of Python str.strip. -/
def strTrim (s : String) : String := String.mk (trimChars s.data)

/-- ASCII lowercase conversion of one character, modelling str.lower. -/
def lowerChar : Char → Char
  | 'A' => 'a' | 'B' => 'b' | 'C' => 'c' | 'D' => 'd' | 'E' => 'e' | 'F' => 'f'
  | 'G' => 'g' | 'H' => 'h' | 'I' => 'i' | 'J' => 'j' | 'K' => 'k' | 'L' => 'l'
  | 'M' => 'm' | 'N' => 'n' | 'O' => 'o' | 'P' => 'p' | 'Q' => 'q' | 'R' => 'r'
  | 'S' => 's' | 'T' => 't' | 'U' => 'u' | 'V' => 'v' | 'W' => 'w' | 'X' => 'x'
  | 'Y' => 'y' | 'Z' => 'z' | c => c

/-- ASCII uppercase conversion of one character, modelling str.upper. -/
def upperChar : Char → Char
  | 'a' => 'A' | 'b' => 'B' | 'c' => 'C' | 'd' => 'D' | 'e' => 'E' | 'f' => 'F'
  | 'g' => 'G' | 'h' => 'H' | 'i' => 'I' | 'j' => 'J' | 'k' => 'K' | 'l' => 'L'
  | 'm' => 'M' | 'n' => 'N' | 'o' => 'O' | 'p' => 'P' | 'q' => 'Q' | 'r' => 'R'
  | 's' => 'S' | 't' => 'T' | 'u' => 'U' | 'v' => 'V' | 'w' => 'W' | 'x' => 'X'
  | 'y' => 'Y' | 'z' => 'Z' | c => c

/-- Model of Python str.lower. -/
def strLower (s : String) : String := String.mk (s.data.map lowerChar)

/-- Model of Python str.upper. -/
def strUpper (s : String) : String := String.mk (s.data.map upperChar)

/-- Decides whether the first list is a prefix of the second. -/
def listStartsWith : List Char → List Char → Bool
  | [], _ => true
  | _ :: _, [] => false
  | a :: as, b :: bs => a = b && listStartsWith as bs

/-- Decides whether needle occurs as a contiguous substring of hay,
modelling the Python expression needle in hay. -/
def listContainsSub (needle : List Char) : List Char → Bool
  | [] => listStartsWith needle []
  | c :: rest => listStartsWith needle (c :: rest) || listContainsSub needle rest

/-- Substring containment on strings, modelling the Python expression
needle in hay. -/
def strContains (hay needle : String) : Bool := listContainsSub needle.data hay.data

/-- Joins a list of strings with a separator, modelling str.join. -/
def strJoin (sep : String) : List String → String
  | [] => ""
  | [s] => s
  | s :: rest => s ++ sep ++ strJoin sep rest

/-- Numeric value of a list of decimal digit characters. -/
def digitsVal (ds : List Char) : Nat := ds.foldl (fun a c => a * 10 + (c.toNat - 48)) 0

/-- Takes at most two leading decimal digits, returning them with the
remaining characters. -/
def takeDigits2 : List Char → List Char × List Char
  | [] => ([], [])
  | [c1] => if c1.isDigit then ([c1], []) else ([], [c1])
  | c1 :: c2 :: rest =>
    if c1.isDigit then
      if c2.isDigit then ([c1, c2], rest) else ([c1], c2 :: rest)
    else ([], c1 :: c2 :: rest)

/-!
Date Recognizer: model of the method parse-underscore-date of the scraper,
which tries datetime.strptime with the formats percent-B percent-d comma
percent-Y; percent-b percent-d comma percent-Y; percent-Y dash percent-m
dash percent-d; percent-m slash percent-d slash percent-Y; percent-d slash
percent-m slash percent-Y, in that order, returning the first success and
None when all of them raise ValueError (the exception is always caught, so
the function is total).

The strptime model follows CPython's strptime regexes: the directive
percent-d compiles to the alternation 3[01] or [12] digit or 0[1-9] or
[1-9]; percent-m compiles to 1[0-2] or 0[1-9] or [1-9]; percent-Y to
exactly four digits; month-name directives to a case-insensitive
alternation of the locale month names; whitespace in the format to one or
more whitespace characters; the whole input must be consumed.  Because in
every format used here the token after a numeric directive can never match
a digit, the regex backtracking inside percent-d and percent-m is
equivalent to taking at most two digits greedily and range-checking them,
which is how the model is written.  After the regex phase, the datetime
constructor validates the day against the month length (with leap years)
and the year against MINYEAR = 1; that check is mkValidDate below.
-/

/-- Calendar date as produced by the date recognizer. -/
structure Date where
  year : Nat
  month : Nat
  day : Nat
deriving DecidableEq, Repr

/-- Gregorian leap-year test, as used by the Python datetime module. -/
def isLeapYear (y : Nat) : Bool := y % 4 = 0 && (y % 100 ≠ 0 || y % 400 = 0)

/-- Number of days in a month of a given year, as in the datetime module. -/
def daysInMonth (y m : Nat) : Nat :=
  if m = 2 then (if isLeapYear y then 29 else 28)
  else if m = 4 || m = 6 || m = 9 || m = 11 then 30
  else 31

/-- Validation performed by the datetime constructor after strptime's
regex phase: the year must be at least MINYEAR = 1 and the day must not
exceed the month length.  Month range and positivity of the day are
already guaranteed by the regex phase. -/
def mkValidDate (y m d : Nat) : Option Date :=
  if 1 ≤ y ∧ d ≤ daysInMonth y m then some ⟨y, m, d⟩ else none

/-- Parses a one-or-two-digit number in the range one to hi, modelling the
regex alternations for percent-d (hi = 31) and percent-m (hi = 12) in the
formats of this program, where the following token never matches a digit. -/
def parseNum2 (hi : Nat) (cs : List Char) : Option (Nat × List Char) :=
  match takeDigits2 cs with
  | ([], _) => none
  | (ds, rest) =>
    let n := digitsVal ds
    if 1 ≤ n ∧ n ≤ hi then some (n, rest) else none

/-- Parses exactly four decimal digits, modelling percent-Y. -/
def parseYear4 : List Char → Option (Nat × List Char)
  | c1 :: c2 :: c3 :: c4 :: rest =>
    if c1.isDigit && c2.isDigit && c3.isDigit && c4.isDigit then
      some (digitsVal [c1, c2, c3, c4], rest)
    else none
  | _ => none

/-- Requires one whitespace character and consumes the whole whitespace
run, modelling a whitespace run in a strptime format. -/
def skipWs1 : List Char → Option (List Char)
  | [] => none
  | c :: rest => if isSpaceChar c then some (rest.dropWhile isSpaceChar) else none

/-- Requires one specific literal character. -/
def expectChar (c : Char) : List Char → Option (List Char)
  | [] => none
  | c0 :: rest => if c0 = c then some rest else none

/-- Full month names with their numbers, as in the C locale used by
strptime's percent-B directive. -/
def fullMonthNames : List (String × Nat) :=
  [("January", 1), ("February", 2), ("March", 3), ("April", 4), ("May", 5),
   ("June", 6), ("July", 7), ("August", 8), ("September", 9), ("October", 10),
   ("November", 11), ("December", 12)]

/-- Abbreviated month names with their numbers, for percent-b. -/
def abbrMonthNames : List (String × Nat) :=
  [("Jan", 1), ("Feb", 2), ("Mar", 3), ("Apr", 4), ("May", 5), ("Jun", 6),
   ("Jul", 7), ("Aug", 8), ("Sep", 9), ("Oct", 10), ("Nov", 11), ("Dec", 12)]

/-- Case-insensitive prefix match of one name, returning the rest of the
input on success. -/
def matchNameCI : List Char → List Char → Option (List Char)
  | [], cs => some cs
  | _ :: _, [] => none
  | a :: as, c :: cs => if lowerChar a = lowerChar c then matchNameCI as cs else none

/-- Tries each month name in turn (no name is a prefix of another, so the
order of the alternation is immaterial). -/
def matchMonth : List (String × Nat) → List Char → Option (Nat × List Char)
  | [], _ => none
  | (nm, v) :: rest, cs =>
    match matchNameCI nm.data cs with
    | some r => some (v, r)
    | none => matchMonth rest cs

/-- Model of strptime with format percent-B percent-d comma percent-Y, for
dates written like January 15, 2024. -/
def strptimeFullMonth (s : String) : Option Date := do
  let (m, r1) ← matchMonth fullMonthNames s.data
  let r2 ← skipWs1 r1
  let (d, r3) ← parseNum2 31 r2
  let r4 ← expectChar ',' r3
  let r5 ← skipWs1 r4
  let (y, r6) ← parseYear4 r5
  if r6 = [] then mkValidDate y m d else none

/-- Model of strptime with format percent-b percent-d comma percent-Y, for
dates written like Jan 15, 2024. -/
def strptimeAbbrMonth (s : String) : Option Date := do
  let (m, r1) ← matchMonth abbrMonthNames s.data
  let r2 ← skipWs1 r1
  let (d, r3) ← parseNum2 31 r2
  let r4 ← expectChar ',' r3
  let r5 ← skipWs1 r4
  let (y, r6) ← parseYear4 r5
  if r6 = [] then mkValidDate y m d else none

/-- Model of strptime with format percent-Y dash percent-m dash percent-d,
for dates written like 2024-01-15. -/
def strptimeIso (s : String) : Option Date := do
  let (y, r1) ← parseYear4 s.data
  let r2 ← expectChar '-' r1
  let (m, r3) ← parseNum2 12 r2
  let r4 ← expectChar '-' r3
  let (d, r5) ← parseNum2 31 r4
  if r5 = [] then mkValidDate y m d else none

/-- Model of strptime with format percent-m slash percent-d slash
percent-Y, the United States order, for dates written like 01/15/2024. -/
def strptimeUsSlash (s : String) : Option Date := do
  let (m, r1) ← parseNum2 12 s.data
  let r2 ← expectChar '/' r1
  let (d, r3) ← parseNum2 31 r2
  let r4 ← expectChar '/' r3
  let (y, r5) ← parseYear4 r4
  if r5 = [] then mkValidDate y m d else none

/-- Model of strptime with format percent-d slash percent-m slash
percent-Y, the day-first order, for dates written like 15/01/2024. -/
def strptimeDayFirstSlash (s : String) : Option Date := do
  let (d, r1) ← parseNum2 31 s.data
  let r2 ← expectChar '/' r1
  let (m, r3) ← parseNum2 12 r2
  let r4 ← expectChar '/' r3
  let (y, r5) ← parseYear4 r4
  if r5 = [] then mkValidDate y m d else none

/-- Model of the date-parsing method of the scraper: strips the input and
tries the five strptime formats in their fixed order, returning the first
success and none when every format fails.  Each ValueError in the source
is caught and silently skipped, so the method is total, as is this model
by construction. -/
def parse_date (s : String) : Option Date :=
  let t := strTrim s
  match strptimeFullMonth t with
  | some d => some d
  | none =>
    match strptimeAbbrMonth t with
    | some d => some d
    | none =>
      match strptimeIso t with
      | some d => some d
      | none =>
        match strptimeUsSlash t with
        | some d => some d
        | none => strptimeDayFirstSlash t


/-!
Markup tree: model of the parsed document (the external collaborator
Parse of the spec).  A tag node carries its name, the multi-valued class
attribute, an optional href attribute, and its children; a text node
carries one string (a NavigableString).  This covers exactly the
attribute surface the scraper reads.
-/

/-- Markup tree node. -/
inductive Node where
  | text (s : String)
  | tag (name : String) (classes : List String) (href : Option String) (children : List Node)
deriving Repr

mutual

/-- Model of get-underscore-text with strip set on a node: every
descendant string stripped and concatenated in document order. -/
def getTextN : Node → String
  | .text s => strTrim s
  | .tag _ _ _ cs => getTextL cs

/-- Concatenated stripped text of a list of nodes. -/
def getTextL : List Node → String
  | [] => ""
  | n :: ns => getTextN n ++ getTextL ns

end

mutual

/-- Model of str applied to a node: the raw markup payload.  Classes are
rendered as one class attribute and href as one attribute, so any
difference in tag name, class list, href or children makes the payloads
differ even when the visible text is identical. -/
def serializeN : Node → String
  | .text s => s
  | .tag nm cls href cs =>
    "<" ++ nm
      ++ (if cls.isEmpty then "" else " class=\"" ++ strJoin " " cls ++ "\"")
      ++ (match href with | some h => " href=\"" ++ h ++ "\"" | none => "")
      ++ ">" ++ serializeL cs ++ "</" ++ nm ++ ">"

/-- Serialization of a list of nodes. -/
def serializeL : List Node → String
  | [] => ""
  | n :: ns => serializeN n ++ serializeL ns

end

mutual

/-- Model of the comprehension over find-underscore-all of anchor tags:
href values of all descendant anchors that have a truthy href, in
document order. -/
def linksN : Node → List String
  | .text _ => []
  | .tag _ _ _ cs => linksL cs

/-- Link collection over a list of nodes. -/
def linksL : List Node → List String
  | [] => []
  | n :: ns =>
    (match n with
     | .tag nm _ href _ =>
       if nm = "a" then
         (match href with
          | some h => if h = "" then [] else [h]
          | none => [])
       else []
     | .text _ => []) ++ linksN n ++ linksL ns

end

mutual

/-- Model of find-underscore-all of li tags: all descendant list entries
in document order (the node itself is not a candidate). -/
def liDescN : Node → List Node
  | .text _ => []
  | .tag _ _ _ cs => liDescL cs

/-- List-entry collection over a list of nodes. -/
def liDescL : List Node → List Node
  | [] => []
  | n :: ns =>
    (match n with | .tag nm _ _ _ => if nm = "li" then [n] else [] | .text _ => []) ++
      liDescN n ++ liDescL ns

end

mutual

/-- Model of find-underscore-all with text set to true: the strings of all
descendant text nodes in document order. -/
def textNodesN : Node → List String
  | .text _ => []
  | .tag _ _ _ cs => textNodesL cs

/-- Text-node collection over a list of nodes. -/
def textNodesL : List Node → List String
  | [] => []
  | n :: ns =>
    (match n with | .text s => [s] | .tag _ _ _ _ => []) ++ textNodesN n ++ textNodesL ns

end

mutual

/-- Model of find-underscore-all for one header tag name: every matching
descendant element in document order, paired with the list of its
following siblings (from which the sibling walk starts). -/
def headerOccsN (tagName : String) : Node → List (Node × List Node)
  | .text _ => []
  | .tag _ _ _ cs => headerOccsL tagName cs

/-- Header occurrences in a list of sibling nodes. -/
def headerOccsL (tagName : String) : List Node → List (Node × List Node)
  | [] => []
  | n :: ns =>
    (match n with
     | .tag nm _ _ _ => if nm = tagName then [(n, ns)] else []
     | .text _ => []) ++ headerOccsN tagName n ++ headerOccsL tagName ns

end

/-- The five class markers that identify a release-role element. -/
def releaseRoleClasses : List String :=
  ["release-feature", "release-changed", "release-announcement", "release-breaking",
   "release-issue"]

/-- Tests whether any of the element's classes is one of the release-role
markers, as in the membership test of the structured sibling walk. -/
def hasRoleClass : Node → Bool
  | .tag _ cls _ _ => cls.any (fun c => releaseRoleClasses.contains c)
  | .text _ => false

/-- Tests for a div carrying a release-role class, as in the
find-underscore-all call of the unstructured extractor's first pass. -/
def isRoleDiv : Node → Bool
  | .tag nm cls _ _ => nm = "div" && cls.any (fun c => releaseRoleClasses.contains c)
  | .text _ => false

mutual

/-- Model of the find-underscore-all call for role-marked divs in the
unstructured extractor: each occurrence in document order together with
its immediate previous sibling, its parent, and its immediate next
sibling (siblings here include text nodes, as the source uses the plain
sibling accessors, not the tag-only finders). -/
def roleDivsN : Node → List (Option Node × Node × Node × Option Node)
  | .text _ => []
  | .tag nm cls href cs => roleDivsL (.tag nm cls href cs) none cs

/-- Role-div occurrences in a sibling list under a given parent, tracking
the previous sibling. -/
def roleDivsL (parent : Node) (prev : Option Node) : List Node → List (Option Node × Node × Node × Option Node)
  | [] => []
  | c :: rest =>
    (if isRoleDiv c then [(prev, parent, c, rest.head?)] else []) ++
      roleDivsN c ++ roleDivsL parent (some c) rest

end

/-!
Categorizer: model of the method categorize-underscore-item.  The
structural branch checks the joined class string for the five role
markers by substring containment; the feature branch inspects the
element's flattened text for the two literal spellings open-paren
Preview close-paren and open-paren preview close-paren.  When no
structural rule fires, the text (or, when the text argument is falsy, the
element's flattened text) is lower-cased and run through the keyword
cascade; a falsy effective text yields the default category update.
-/

/-- Joined class string of an element, modelling the space-join of the
class attribute. -/
def classStrOf : Node → String
  | .tag _ cls _ _ => strJoin " " cls
  | .text _ => ""

/-- Structural branch of the categorizer: the chain of elif tests on the
joined class string, first match wins, none when no marker is found. -/
def structuralCat (e : Node) : Option String :=
  let cstr := classStrOf e
  if strContains cstr "release-feature" then
    let etext := getTextN e
    if strContains etext "(Preview)" || strContains etext "(preview)" then
      some "public-preview"
    else some "ga"
  else if strContains cstr "release-changed" then some "change"
  else if strContains cstr "release-announcement" then some "announcement"
  else if strContains cstr "release-breaking" then some "breaking"
  else if strContains cstr "release-issue" then some "issue"
  else none

def securityKeywords : List String := ["security", "vulnerability", "cve", "patch"]

def breakingKeywords : List String :=
  ["breaking change", "breaking change:", "migration required", "major version update"]

def previewKeywords : List String :=
  ["(preview)", "public preview", "in preview", "preview)", "early access", "beta"]

def gaKeywords : List String :=
  ["generally available", "general availability", "(ga)", "is now ga", "is in ga",
   "in general availability"]

def deprecatedKeywords : List String :=
  ["deprecated", "deprecation", "obsolete", "removed", "discontinued"]

def fixedKeywords : List String := ["fixed", "fix:", "resolved", "bug"]

def issueKeywords : List String := ["issue", "known issue", "workaround"]

def changeKeywords : List String := ["changed:", "migration required", "version updates"]

def announcementKeywords : List String := ["announced", "announcement", "introducing"]

def libraryKeywords : List String := ["library", "sdk", "api", "client library", "framework"]

/-- Model of the Python any-comprehension testing keyword membership in
the lower-cased text. -/
def containsAny (kws : List String) (t : String) : Bool := kws.any (fun k => strContains t k)

/-- Keyword cascade of the categorizer, written as the same sequence of
if tests as the source. -/
def keywordCascade (tl : String) : String :=
  if containsAny securityKeywords tl then "security"
  else if containsAny breakingKeywords tl then "breaking"
  else if containsAny previewKeywords tl then "public-preview"
  else if containsAny gaKeywords tl then "ga"
  else if containsAny deprecatedKeywords tl then "deprecated"
  else if containsAny fixedKeywords tl then "fixed"
  else if containsAny issueKeywords tl then "issue"
  else if containsAny changeKeywords tl then "change"
  else if containsAny announcementKeywords tl then "announcement"
  else if containsAny libraryKeywords tl then "libraries"
  else "update"

/-- Model of the method categorize-underscore-item.  A pure function, so
identical inputs always yield identical outputs. -/
def categorize_item (element : Option Node) (text0 : Option String) : String :=
  match element.bind structuralCat with
  | some c => c
  | none =>
    let text1 : Option String :=
      match text0, element with
      | some t, some e => if t = "" then some (getTextN e) else some t
      | none, some e => some (getTextN e)
      | t, none => t
    match text1 with
    | none => "update"
    | some t => if t = "" then "update" else keywordCascade (strLower t)

/-- The keyword cascade as an ordered rule table, in the priority order
stated by the specification: security, breaking, preview, ga, deprecated,
fixed, issue, change, announcement, libraries. -/
def keywordRules : List (List String × String) :=
  [(securityKeywords, "security"), (breakingKeywords, "breaking"),
   (previewKeywords, "public-preview"), (gaKeywords, "ga"),
   (deprecatedKeywords, "deprecated"), (fixedKeywords, "fixed"),
   (issueKeywords, "issue"), (changeKeywords, "change"),
   (announcementKeywords, "announcement"), (libraryKeywords, "libraries")]

/-- First matching rule of an ordered rule table, with default category
update. -/
def firstRuleHit : List (List String × String) → String → String
  | [], _ => "update"
  | (kws, cat) :: rest, t => if containsAny kws t then cat else firstRuleHit rest t


/-!
Date-pattern search: models of the three regexes of the platform profile,
searched with re.search (first match, leftmost start) and re.findall
(all non-overlapping matches).  Pattern one is word-chars, whitespace,
one or two digits, comma, whitespace, four digits; pattern two is four
digits, dash, two digits, dash, two digits; pattern three is one or two
digits, slash, one or two digits, slash, four digits.  Each matcher
returns the matched characters (the single capture group is the whole
pattern) and the remainder after the match.  Greedy quantifier
backtracking is equivalence-reduced as in the strptime model: in these
patterns the token following a digit quantifier never matches a digit,
and the classes of adjacent quantifiers are disjoint, so maximal munch is
exact.
-/

/-- Matcher for the month-name date pattern at the current position. -/
def matchPat1At (cs : List Char) : Option (List Char × List Char) :=
  let w := cs.takeWhile isWordChar
  let r1 := cs.dropWhile isWordChar
  if w.isEmpty then none
  else
    let sp1 := r1.takeWhile isSpaceChar
    let r2 := r1.dropWhile isSpaceChar
    if sp1.isEmpty then none
    else
      match takeDigits2 r2 with
      | ([], _) => none
      | (ds, r3) =>
        match r3 with
        | ',' :: r4 =>
          let sp2 := r4.takeWhile isSpaceChar
          let r5 := r4.dropWhile isSpaceChar
          if sp2.isEmpty then none
          else
            match r5 with
            | c1 :: c2 :: c3 :: c4 :: r6 =>
              if c1.isDigit && c2.isDigit && c3.isDigit && c4.isDigit then
                some (w ++ sp1 ++ ds ++ [','] ++ sp2 ++ [c1, c2, c3, c4], r6)
              else none
            | _ => none
        | _ => none

/-- Matcher for the ISO date pattern at the current position. -/
def matchPat2At : List Char → Option (List Char × List Char)
  | y1 :: y2 :: y3 :: y4 :: '-' :: m1 :: m2 :: '-' :: d1 :: d2 :: rest =>
    if [y1, y2, y3, y4, m1, m2, d1, d2].all Char.isDigit then
      some ([y1, y2, y3, y4, '-', m1, m2, '-', d1, d2], rest)
    else none
  | _ => none

/-- Matcher for the slash date pattern at the current position. -/
def matchPat3At (cs : List Char) : Option (List Char × List Char) :=
  match takeDigits2 cs with
  | ([], _) => none
  | (a, r1) =>
    match r1 with
    | '/' :: r2 =>
      (match takeDigits2 r2 with
       | ([], _) => none
       | (b, r3) =>
         match r3 with
         | '/' :: c1 :: c2 :: c3 :: c4 :: rest =>
           if c1.isDigit && c2.isDigit && c3.isDigit && c4.isDigit then
             some (a ++ ['/'] ++ b ++ ['/'] ++ [c1, c2, c3, c4], rest)
           else none
         | _ => none)
    | _ => none

/-- Model of re.search: tries the matcher at every start position from the
left and returns the first match. -/
def regexSearch (matchAt : List Char → Option (List Char × List Char)) : List Char → Option (List Char)
  | [] => (matchAt []).map (fun r => r.1)
  | c :: rest =>
    match matchAt (c :: rest) with
    | some (m, _) => some m
    | none => regexSearch matchAt rest

/-- Worker for the findall model, with fuel bounding the number of steps
(each step either consumes a nonempty match or advances one character, so
the initial fuel of length plus one is never exhausted). -/
def regexFindAllGo (matchAt : List Char → Option (List Char × List Char)) : Nat → List Char → List String
  | 0, _ => []
  | _ + 1, [] => []
  | f + 1, c :: rest =>
    match matchAt (c :: rest) with
    | some (m, after) => String.mk m :: regexFindAllGo matchAt f after
    | none => regexFindAllGo matchAt f rest

/-- Model of re.findall: all non-overlapping matches from the left. -/
def regexFindAll (matchAt : List Char → Option (List Char × List Char)) (cs : List Char) : List String :=
  regexFindAllGo matchAt (cs.length + 1) cs

/-- The ordered date-pattern list of the platform profile (identical for
the google-cloud and generic profiles). -/
def datePatternList : List (List Char → Option (List Char × List Char)) :=
  [matchPat1At, matchPat2At, matchPat3At]

/-- Header-date extraction of the structured extractor: patterns are tried
in order, and the first pattern whose search result also parses provides
the display string and the date (a pattern whose match fails to parse
falls through to the next pattern, mirroring the placement of the break
statement inside the parsed-date conditional). -/
def headerDate : List (List Char → Option (List Char × List Char)) → String → Option (String × Date)
  | [], _ => none
  | p :: rest, t =>
    match regexSearch p t.data with
    | some m =>
      (match parse_date (String.mk m) with
       | some d => some (String.mk m, d)
       | none => headerDate rest t)
    | none => headerDate rest t

/-- Nearby-date pattern scan of the unstructured extractor's first pass:
the first pattern that matches ends the pattern loop (its parse result,
successful or not, is what the element contributes, because the break
fires on the match, before the parse is inspected). -/
def elemFirstMatch : List (List Char → Option (List Char × List Char)) → String → Option (String × Option Date)
  | [], _ => none
  | p :: rest, t =>
    match regexSearch p t.data with
    | some m => some (String.mk m, parse_date (String.mk m))
    | none => elemFirstMatch rest t

/-!
Release model.  An item records the raw markup payload (str of the source
element), the category, and the extracted link targets; a group records
the parsed date (as a day ordinal on the datetime timeline), the display
string exactly as matched, the items, and the source URL.
-/

/-- One categorized content fragment. -/
structure ReleaseItem where
  text : String
  category : String
  urls : List String
deriving DecidableEq, Repr

/-- One date-bucketed collection of items. -/
structure ReleaseGroup where
  date : Option Int
  dateStr : String
  items : List ReleaseItem
  url : String
deriving DecidableEq, Repr

/-- Cumulative days before a month, as in the datetime module. -/
def daysBeforeMonth (y m : Nat) : Nat :=
  (match m with
   | 1 => 0 | 2 => 31 | 3 => 59 | 4 => 90 | 5 => 120 | 6 => 151
   | 7 => 181 | 8 => 212 | 9 => 243 | 10 => 273 | 11 => 304 | _ => 334) +
  (if 2 < m && isLeapYear y then 1 else 0)

/-- Proleptic-Gregorian day ordinal of a date, as date.toordinal in
Python; this embeds parsed dates (midnight datetimes) into the integer
timeline used for the cutoff comparison and the sort. -/
def dateOrdinal (d : Date) : Int :=
  ((365 * (d.year - 1) + (d.year - 1) / 4 + (d.year - 1) / 400 +
      daysBeforeMonth d.year d.month + d.day - (d.year - 1) / 100 : Nat) : Int)

/-!
Structured extractor: model of parse-underscore-structured-releases.  For
each header tag name of the profile, every matching element is visited in
document order; when its text yields a date, the following siblings are
walked until the next header-tagged sibling, producing items; a group is
appended only when at least one item was produced.
-/

/-- Item contribution of one walked sibling element: the role-marker
branch, the list-expansion branch, the paragraph-or-container branch (the
two non-list branches require stripped text longer than ten characters),
or nothing for other tags. -/
def siblingItems (n : Node) : List ReleaseItem :=
  match n with
  | .text _ => []
  | .tag nm _ _ _ =>
    if hasRoleClass n then
      let text := getTextN n
      if text ≠ "" ∧ text.length > 10 then
        [⟨serializeN n, categorize_item (some n) (some text), linksN n⟩]
      else []
    else if nm = "p" || nm = "ul" || nm = "ol" || nm = "li" || nm = "div" then
      if nm = "ul" || nm = "ol" then
        (liDescN n).filterMap (fun li =>
          let liText := getTextN li
          if liText ≠ "" then
            some ⟨serializeN li, categorize_item (some li) (some liText), linksN li⟩
          else none)
      else
        let text := getTextN n
        if text ≠ "" ∧ text.length > 10 then
          [⟨serializeN n, categorize_item (some n) (some text), linksN n⟩]
        else []
    else []

/-- Sibling walk from the position after a dated header: bare strings are
skipped (the source uses the tag-only sibling finder), and the walk stops
at the first sibling whose tag is one of the profile's header tags. -/
def walkItems (hdrs : List String) : List Node → List ReleaseItem
  | [] => []
  | n :: rest =>
    match n with
    | .text _ => walkItems hdrs rest
    | .tag nm _ _ _ =>
      if hdrs.contains nm then []
      else siblingItems n ++ walkItems hdrs rest

/-- Group produced by one header, when its text carries a parseable date
and the sibling walk yields at least one item. -/
def headerGroup (hdrs : List String) (url : String) (h : Node) (sibs : List Node) : Option ReleaseGroup :=
  match headerDate datePatternList (getTextN h) with
  | none => none
  | some (ds, d) =>
    let items := walkItems hdrs sibs
    if items.isEmpty then none
    else some ⟨some (dateOrdinal d), ds, items, url⟩

/-- Model of parse-underscore-structured-releases: all header tags of the
profile in order, all matching headers in document order for each. -/
def parse_structured_releases (hdrs : List String) (url : String) (doc : Node) : List ReleaseGroup :=
  (hdrs.map (fun tagName =>
    (headerOccsN tagName doc).filterMap (fun occ => headerGroup hdrs url occ.1 occ.2))).flatten

/-!
Unstructured extractor: model of parse-underscore-unstructured-releases.
Pass A scans role-marked divs anywhere in the content area, looks for a
date in the previous sibling, the parent and the next sibling (in that
order), and appends single-item groups subject to the raw-payload
duplicate check against every item already collected.  Pass B scans all
text nodes; the source rebinds the loop variable to its stripped value, a
plain Python str, so the subsequent parent-attribute access raises
AttributeError at the first match that parses to a date inside the
window; the exception propagates to the generic handler of scrape.  Pass
B therefore either leaves the collection unchanged or aborts the run.
-/

/-- Raw payloads of every item already collected, in order, as inspected
by the duplicate check of the unstructured extractor. -/
def allPayloads (gs : List ReleaseGroup) : List String :=
  (gs.map (fun g => g.items.map ReleaseItem.text)).flatten

/-- Date search over the candidate neighbour elements of a role-marked
div: the first element whose first matching pattern also parses provides
the date (absent elements are skipped; an element whose match fails to
parse yields nothing and the scan moves on). -/
def findNearbyDate : List (Option Node) → Option (String × Date)
  | [] => none
  | none :: rest => findNearbyDate rest
  | some e :: rest =>
    match elemFirstMatch datePatternList (getTextN e) with
    | some (m, some d) => some (m, d)
    | _ => findNearbyDate rest

/-- Handling of one role-marked div in pass A: date lookup, window check,
minimum text length of more than twenty characters, duplicate check on
the raw payload, then append of a single-item group. -/
def passAEmit (cutoff : Int) (url : String)
    (ctx : Option Node × Node × Node × Option Node)
    (acc : List ReleaseGroup) : List ReleaseGroup :=
  let (prev, parent, d, nxt) := ctx
  match findNearbyDate [prev, some parent, nxt] with
  | none => acc
  | some (ds, dt) =>
    if cutoff ≤ dateOrdinal dt then
      let text := getTextN d
      let textContent := serializeN d
      if text ≠ "" ∧ text.length > 20 then
        if (allPayloads acc).contains textContent then acc
        else
          acc ++ [⟨some (dateOrdinal dt), ds,
                   [⟨textContent, categorize_item (some d) (some text), linksN d⟩], url⟩]
      else acc
    else acc

/-- Pass A of the unstructured extractor: every role-marked div in
document order, folded over the running collection. -/
def passA (cutoff : Int) (url : String) (doc : Node) (acc : List ReleaseGroup) : List ReleaseGroup :=
  (roleDivsN doc).foldl (fun a ctx => passAEmit cutoff url ctx a) acc

/-- Trigger test of pass B on one stripped text-node string: some pattern
has some findall match that parses to a date on or after the cutoff. -/
def passBHit (cutoff : Int) (t : String) : Bool :=
  datePatternList.any (fun p =>
    (regexFindAll p t.data).any (fun m =>
      match parse_date m with
      | some d => decide (cutoff ≤ dateOrdinal d)
      | none => false))

/-- Pass B of the unstructured extractor.  The loop body rebinds its
variable to the stripped string before reading the parent attribute, so
the first in-window parse aborts with AttributeError; otherwise the pass
finishes without touching the collection (the emitting statements after
the parent access are unreachable). -/
def passB (cutoff : Int) (doc : Node) (acc : List ReleaseGroup) : Except String (List ReleaseGroup) :=
  if (textNodesN doc).any (fun s =>
      let t := strTrim s
      !(t == "") && passBHit cutoff t) then
    .error "AttributeError: str object has no attribute parent"
  else .ok acc

/-- Model of parse-underscore-unstructured-releases: pass A then pass B on
the collection. -/
def parse_unstructured_releases (cutoff : Int) (url : String) (doc : Node)
    (acc : List ReleaseGroup) : Except String (List ReleaseGroup) :=
  passB cutoff doc (passA cutoff url doc acc)

/-!
Scrape pipeline, retention filter and sort.
-/

/-- Cutoff instant: the current instant minus months times thirty days,
on the day-granularity integer timeline. -/
def cutoffDate (now : Int) (months : Int) : Int := now - months * 30

/-- Survival test of the final filter: the group's date is present and on
or after the cutoff (a Python datetime is always truthy, so the source's
first conjunct is exactly presence). -/
def keepRelease (cutoff : Int) (g : ReleaseGroup) : Bool :=
  match g.date with
  | some d => decide (cutoff ≤ d)
  | none => false

/-- Outcome of the fetch-and-parse prelude of scrape: a parsed content
area, a transport error (requests.RequestException), or any other
exception raised while parsing (caught by the generic handler). -/
inductive FetchOutcome where
  | success (contentArea : Node)
  | transportError (msg : String)
  | parseFailure (msg : String)

/-- Extraction phase of scrape: the structured extractor runs first, and
the unstructured extractor runs exactly when the structured one left the
collection empty.  The boolean records whether the fallback ran. -/
def extractionPhases (hdrs : List String) (url : String) (cutoff : Int) (doc : Node) :
    Except String (List ReleaseGroup) × Bool :=
  let s := parse_structured_releases hdrs url doc
  if s.isEmpty then (parse_unstructured_releases cutoff url doc s, true)
  else (.ok s, false)

/-- Model of the scrape method: on a transport error or on any exception
during parsing the handlers return the empty collection; otherwise the
extraction phases run and the result is filtered by the cutoff. -/
def scrape (hdrs : List String) (url : String) (cutoff : Int) (outcome : FetchOutcome) :
    List ReleaseGroup :=
  match outcome with
  | .transportError _ => []
  | .parseFailure _ => []
  | .success doc =>
    match (extractionPhases hdrs url cutoff doc).1 with
    | .ok rs => rs.filter (keepRelease cutoff)
    | .error _ => []

/-- Sort-key comparison modelling the Python key function: an absent date
stands for datetime.min, the least element of the timeline, so the order
on keys is the option order with none at the bottom. -/
def dateKeyLE : Option Int → Option Int → Bool
  | none, _ => true
  | some _, none => false
  | some a, some b => decide (a ≤ b)

/-- Sort key of a group, as in the lambda of the sort calls. -/
def sortKey (g : ReleaseGroup) : Option Int := g.date

/-- Comparison placing group a before group b in the descending sort. -/
def groupBefore (a b : ReleaseGroup) : Bool := dateKeyLE (sortKey b) (sortKey a)

/-- Insertion step of the descending stable sort. -/
def insertDesc (g : ReleaseGroup) : List ReleaseGroup → List ReleaseGroup
  | [] => [g]
  | h :: t => if groupBefore g h then g :: h :: t else h :: insertDesc g t

/-- Model of the in-place sort by date descending performed by every
renderer before iterating the groups (stable, as list.sort in Python). -/
def sortReleasesDesc (l : List ReleaseGroup) : List ReleaseGroup := l.foldr insertDesc []

/-!
Text renderer: model of format-underscore-text, line by line; the final
document is the newline join of the lines.  The markup payload of each
item is re-parsed and flattened (the BeautifulSoup round trip), and the
known self-link URL is removed.
-/

/-- Splits a markup string into its text runs (the segments outside tag
brackets), modelling re-parsing the payload and collecting its strings. -/
def splitSegsGo : List Char → List Char → Bool → List String
  | [], cur, _ => [String.mk cur.reverse]
  | c :: t, cur, inTag =>
    if inTag then
      (if c = '>' then splitSegsGo t [] false else splitSegsGo t cur true)
    else if c = '<' then String.mk cur.reverse :: splitSegsGo t [] true
    else splitSegsGo t (c :: cur) false

/-- Model of the renderer round trip: BeautifulSoup on the raw payload
followed by get-underscore-text with strip, which strips each text run
and concatenates. -/
def extractText (s : String) : String :=
  strJoin "" ((splitSegsGo s.data [] false).map strTrim)

/-- Worker for string replacement with fuel (each step consumes at least
one character, so fuel of length plus one is never exhausted). -/
def replaceAllGo (pat repl : List Char) : Nat → List Char → List Char
  | 0, cs => cs
  | _ + 1, [] => []
  | f + 1, c :: t =>
    if !pat.isEmpty && listStartsWith pat (c :: t) then
      repl ++ replaceAllGo pat repl f (t.drop (pat.length - 1))
    else c :: replaceAllGo pat repl f t

/-- Model of str.replace for a nonempty pattern: every non-overlapping
occurrence from the left is replaced. -/
def strReplace (s pat repl : String) : String :=
  String.mk (replaceAllGo pat.data repl.data (s.data.length + 1) s.data)

/-- A repeated-character line, as in the Python string-repetition idiom. -/
def charLine (c : Char) (n : Nat) : String := String.mk (List.replicate n c)

/-- The canonical self-link removed from rendered item text. -/
def selfLinkUrl : String := "https://cloud.google.com/run/docs/release-notes"

/-- Running category counts in first-occurrence order, modelling the
Python dict accumulation. -/
def bumpCount (l : List (String × Nat)) (c : String) : List (String × Nat) :=
  match l with
  | [] => [(c, 1)]
  | (k, v) :: rest => if k = c then (k, v + 1) :: rest else (k, v) :: bumpCount rest c

/-- Per-category item counts over the groups, in first-occurrence order. -/
def categoryCounts (rs : List ReleaseGroup) : List (String × Nat) :=
  rs.foldl (fun acc g => g.items.foldl (fun a it => bumpCount a it.category) acc) []

/-- Insertion step of the stable descending sort of category counts. -/
def insertCountDesc (x : String × Nat) : List (String × Nat) → List (String × Nat)
  | [] => [x]
  | h :: t => if decide (h.2 ≤ x.2) then x :: h :: t else h :: insertCountDesc x t

/-- Stable sort of category counts by descending count, modelling the
sorted call with a count key and reverse set. -/
def sortCountsDesc (l : List (String × Nat)) : List (String × Nat) := l.foldr insertCountDesc []

/-- Lines of one rendered item in the text format. -/
def itemLines (it : ReleaseItem) : List String :=
  let text := strReplace (extractText it.text) selfLinkUrl ""
  ["  [" ++ strUpper it.category ++ "] " ++ text] ++
  (if it.urls.isEmpty then [] else "    Links:" :: it.urls.map (fun u => "      - " ++ u)) ++
  [""]

/-- Lines of one rendered group in the text format. -/
def groupLines (g : ReleaseGroup) : List String :=
  ("\n## " ++ g.dateStr) :: charLine '-' 40 :: (g.items.map itemLines).flatten

/-- Model of format-underscore-text as its list of output lines: header,
the no-results line for an empty collection, otherwise the groups sorted
by date descending followed by the statistics block. -/
def format_text_lines (nowStr : String) (months : Int) (releases : List ReleaseGroup) : List String :=
  let headerLines := [charLine '=' 80, "RELEASE NOTES SUMMARY", "Generated: " ++ nowStr,
    "Time range: Last " ++ toString months ++ " months", charLine '=' 80, ""]
  if releases.isEmpty then
    headerLines ++ ["No releases found in the specified time range."]
  else
    let sorted := sortReleasesDesc releases
    let counts := sortCountsDesc (categoryCounts sorted)
    let totalItems := (sorted.map (fun g => g.items.length)).sum
    headerLines ++ (sorted.map groupLines).flatten ++
      ["\n" ++ charLine '=' 80, "STATISTICS", charLine '-' 40,
       "Total releases: " ++ toString sorted.length,
       "Total items: " ++ toString totalItems] ++
      (if counts.isEmpty then [] else
        "\nItems by category:" :: counts.map (fun kc => "  - " ++ kc.1 ++ ": " ++ toString kc.2))

/-- Model of format-underscore-text: the newline join of its lines. -/
def format_text (nowStr : String) (months : Int) (releases : List ReleaseGroup) : String :=
  strJoin "\n" (format_text_lines nowStr months releases)
/-!
Calendar conversion for the renderers: the inverse of the day ordinal,
as in the ord-to-ymd conversion of the datetime module, used to model
isoformat and the year-month-day strftime of midnight datetimes.
-/

/-- Month of a zero-based day-of-year in a given year. -/
def monthOfDayOfYear (year r1 : Nat) : Nat :=
  if r1 < daysBeforeMonth year 2 then 1
  else if r1 < daysBeforeMonth year 3 then 2
  else if r1 < daysBeforeMonth year 4 then 3
  else if r1 < daysBeforeMonth year 5 then 4
  else if r1 < daysBeforeMonth year 6 then 5
  else if r1 < daysBeforeMonth year 7 then 6
  else if r1 < daysBeforeMonth year 8 then 7
  else if r1 < daysBeforeMonth year 9 then 8
  else if r1 < daysBeforeMonth year 10 then 9
  else if r1 < daysBeforeMonth year 11 then 10
  else if r1 < daysBeforeMonth year 12 then 11
  else 12

/-- Year, month and day of a proleptic-Gregorian day ordinal, following
the 400-year, 100-year, 4-year, 1-year division scheme of the datetime
module. -/
def ord2ymd (n : Int) : Nat × Nat × Nat :=
  let n0 := (n - 1).toNat
  let n400 := n0 / 146097
  let r400 := n0 % 146097
  let n100 := r400 / 36524
  let r100 := r400 % 36524
  let n4 := r100 / 1461
  let r4 := r100 % 1461
  let n1 := r4 / 365
  let r1 := r4 % 365
  let year := n400 * 400 + n100 * 100 + n4 * 4 + n1 + 1
  if n1 = 4 ∨ n100 = 4 then (year - 1, 12, 31)
  else
    let m := monthOfDayOfYear year r1
    (year, m, r1 + 1 - daysBeforeMonth year m)

/-- Two-digit zero padding. -/
def pad2 (n : Nat) : String := if n < 10 then "0" ++ toString n else toString n

/-- Four-digit zero padding. -/
def pad4 (n : Nat) : String :=
  if n < 10 then "000" ++ toString n
  else if n < 100 then "00" ++ toString n
  else if n < 1000 then "0" ++ toString n
  else toString n

/-- Model of strftime with the year-month-day format on a midnight
datetime given by its day ordinal. -/
def ordDateStr (n : Int) : String :=
  let ymd := ord2ymd n
  pad4 ymd.1 ++ "-" ++ pad2 ymd.2.1 ++ "-" ++ pad2 ymd.2.2

/-- Model of datetime.isoformat on a midnight datetime given by its day
ordinal. -/
def ordinalIso (n : Int) : String := ordDateStr n ++ "T00:00:00"

/-- Worker for the title-case model: a cased character starting a word is
uppercased, every other cased character is lowercased. -/
def titleCaseGo : Bool → List Char → List Char
  | _, [] => []
  | prevCased, c :: rest =>
    let cased := c.isAlpha
    (if cased && !prevCased then upperChar c else lowerChar c) :: titleCaseGo cased rest

/-- Model of Python str.title on the ASCII strings of the category set. -/
def strTitle (s : String) : String := String.mk (titleCaseGo false s.data)

/-!
Markdown renderer: model of format-underscore-markdown, line by line; the
document is the newline join of the lines.
-/

/-- Lines of one rendered item in the markdown format. -/
def mdItemLines (it : ReleaseItem) : List String :=
  let text := strReplace (extractText it.text) selfLinkUrl ""
  ("- `" ++ it.category ++ "` " ++ text) ::
  (if it.urls.isEmpty then [] else it.urls.map (fun u => "  - [Link](" ++ u ++ ")"))

/-- Lines of one rendered group in the markdown format (one blank line
closes each group). -/
def mdGroupLines (g : ReleaseGroup) : List String :=
  ("\n## " ++ g.dateStr ++ "\n") :: ((g.items.map mdItemLines).flatten ++ [""])

/-- Model of format-underscore-markdown as its list of output lines:
header, the italic no-results line for an empty collection, otherwise
the groups sorted by date descending followed by the statistics block. -/
def format_markdown_lines (nowStr url : String) (months : Int)
    (releases : List ReleaseGroup) : List String :=
  let headerLines := ["# Release Notes Summary\n",
    "**Source:** [" ++ url ++ "](" ++ url ++ ")  ",
    "**Generated:** " ++ nowStr ++ "  ",
    "**Time range:** Last " ++ toString months ++ " months\n",
    "---\n"]
  if releases.isEmpty then
    headerLines ++ ["*No releases found in the specified time range.*"]
  else
    let sorted := sortReleasesDesc releases
    let counts := sortCountsDesc (categoryCounts sorted)
    let totalItems := (sorted.map (fun g => g.items.length)).sum
    headerLines ++ (sorted.map mdGroupLines).flatten ++
      ["\n---\n", "## Statistics\n",
       "- **Total releases:** " ++ toString sorted.length,
       "- **Total items:** " ++ toString totalItems] ++
      (if counts.isEmpty then [] else
        "\n### Items by category\n" ::
          counts.map (fun kc => "- `" ++ kc.1 ++ "`: " ++ toString kc.2))

/-- Model of format-underscore-markdown: the newline join of its lines. -/
def format_markdown (nowStr url : String) (months : Int)
    (releases : List ReleaseGroup) : String :=
  strJoin "\n" (format_markdown_lines nowStr url months releases)

/-!
JSON renderer: model of format-underscore-json.  The function first
builds the output dictionary (metadata, statistics, releases with
datetimes rendered through isoformat) and then serializes it with
json.dumps at indent two, which the dumps model below reproduces.  The
isoformat of the generation instant and of the cutoff datetime carry a
time of day, which the day-granularity timeline does not represent, so
those two strings are parameters, exactly like the strftime strings of
the other renderers.
-/

/-- JSON values, as built by the renderer before serialization (only the
shapes json.dumps receives from this program: strings, integers, None,
lists, dictionaries). -/
inductive JsonVal where
  | jNull
  | jNum (n : Int)
  | jStr (s : String)
  | jArr (elements : List JsonVal)
  | jObj (fields : List (String × JsonVal))
deriving Repr

/-- Escape of one character inside a JSON string literal: the quote, the
backslash and the whitespace controls get their two-character escapes,
everything else stands for itself. -/
def jsonEscChar (c : Char) : String :=
  if c = '"' then "\\\""
  else if c = '\\' then "\\\\"
  else if c = '\n' then "\\n"
  else if c = '\t' then "\\t"
  else if c = '\r' then "\\r"
  else String.mk [c]

/-- JSON string escaping as performed by json.dumps on the ASCII strings
of this program. -/
def jsonEscape (s : String) : String := strJoin "" (s.data.map jsonEscChar)

/-- Indentation prefix of json.dumps with indent two at a nesting level. -/
def jsonIndent (lvl : Nat) : String := String.mk (List.replicate (2 * lvl) ' ')

mutual

/-- Model of json.dumps with indent two: value serialization at a
nesting level. -/
def jsonDumpsVal : JsonVal → Nat → String
  | .jStr s, _ => "\"" ++ jsonEscape s ++ "\""
  | .jNum n, _ => toString n
  | .jNull, _ => "null"
  | .jArr [], _ => "[]"
  | .jArr (x :: xs), lvl =>
    "[\n" ++ jsonDumpsItems (x :: xs) (lvl + 1) ++ "\n" ++ jsonIndent lvl ++ "]"
  | .jObj [], _ => "\x7b\x7d"
  | .jObj (kv :: kvs), lvl =>
    "\x7b\n" ++ jsonDumpsMembers (kv :: kvs) (lvl + 1) ++ "\n" ++ jsonIndent lvl ++ "\x7d"

/-- Array entries of the dumps model, separated by comma and newline. -/
def jsonDumpsItems : List JsonVal → Nat → String
  | [], _ => ""
  | [x], lvl => jsonIndent lvl ++ jsonDumpsVal x lvl
  | x :: y :: rest, lvl =>
    jsonIndent lvl ++ jsonDumpsVal x lvl ++ ",\n" ++ jsonDumpsItems (y :: rest) lvl

/-- Object members of the dumps model, separated by comma and newline. -/
def jsonDumpsMembers : List (String × JsonVal) → Nat → String
  | [], _ => ""
  | [(k, v)], lvl => jsonIndent lvl ++ "\"" ++ jsonEscape k ++ "\": " ++ jsonDumpsVal v lvl
  | (k, v) :: m :: rest, lvl =>
    jsonIndent lvl ++ "\"" ++ jsonEscape k ++ "\": " ++ jsonDumpsVal v lvl ++ ",\n" ++
      jsonDumpsMembers (m :: rest) lvl

end

/-- Output dictionary of format-underscore-json: run metadata, summary
statistics, and the sorted groups with isoformat dates, stripped item
text, category and links. -/
def format_json_value (generatedStr cutoffIso url : String) (months : Int)
    (releases : List ReleaseGroup) : JsonVal :=
  let rs := sortReleasesDesc releases
  let jsonReleases := rs.map (fun g =>
    JsonVal.jObj [
      ("date", match g.date with | some d => JsonVal.jStr (ordinalIso d) | none => JsonVal.jNull),
      ("date_str", JsonVal.jStr g.dateStr),
      ("items", JsonVal.jArr (g.items.map (fun it =>
        JsonVal.jObj [
          ("text", JsonVal.jStr (strReplace (extractText it.text) selfLinkUrl "")),
          ("category", JsonVal.jStr it.category),
          ("urls", JsonVal.jArr (it.urls.map JsonVal.jStr))]))),
      ("url", JsonVal.jStr g.url)])
  JsonVal.jObj [
    ("metadata", JsonVal.jObj [
      ("source", JsonVal.jStr url),
      ("generated", JsonVal.jStr generatedStr),
      ("time_range_months", JsonVal.jNum months),
      ("cutoff_date", JsonVal.jStr cutoffIso)]),
    ("statistics", JsonVal.jObj [
      ("total_releases", JsonVal.jNum (rs.length : Int)),
      ("total_items", JsonVal.jNum (((rs.map (fun g => g.items.length)).sum : Nat) : Int))]),
    ("releases", JsonVal.jArr jsonReleases)]

/-- Model of format-underscore-json: the dictionary serialized by the
dumps model. -/
def format_json (generatedStr cutoffIso url : String) (months : Int)
    (releases : List ReleaseGroup) : String :=
  jsonDumpsVal (format_json_value generatedStr cutoffIso url months releases) 0

/-- Member lookup in a list of JSON object members. -/
def jsonFieldPairs : List (String × JsonVal) → String → Option JsonVal
  | [], _ => none
  | (k0, v) :: rest, k => if k0 = k then some v else jsonFieldPairs rest k

/-- Member lookup in a rendered JSON object. -/
def jsonField : JsonVal → String → Option JsonVal
  | .jObj members, k => jsonFieldPairs members k
  | _, _ => none

/-!
HTML renderer: model of format-underscore-html, line by line; the
document is the newline join of the lines.  The collection is sorted
first; an empty collection yields the no-results block and a search
range from the cutoff to today, a nonempty one yields one block per
group (with the raw markup payload inserted verbatim), a date range over
the present dates, and the category breakdown.  When a nonempty
collection contains no present date at all, the source raises ValueError
(min of an empty generator); the model returns that error, a case the
pipeline never produces since the retention filter only passes dated
groups.  The strftime strings of the generation instant carry a time of
day, so they are parameters as in the other renderers.
-/

/-- Static document head of the HTML renderer: doctype, head, stylesheet
and the opening of the body, exactly the literal lines of the source. -/
def htmlHeadLines : List String :=
 ["<!DOCTYPE html>",
  "<html lang=\"en\">",
  "<head>",
  "    <meta charset=\"UTF-8\">",
  "    <meta name=\"viewport\" content=\"width=device-width, initial-scale=1.0\">",
  "    <title>Release Notes Summary</title>",
  "    <style>",
  "        body \x7b",
  "            font-family: -apple-system, BlinkMacSystemFont, \"Segoe UI\", Roboto, \"Helvetica Neue\", Arial, sans-serif;",
  "            line-height: 1.6;",
  "            max-width: 1200px;",
  "            margin: 0 auto;",
  "            padding: 20px;",
  "            background: #f5f5f5;",
  "        \x7d",
  "        .header \x7b",
  "            background: linear-gradient(135deg, #667eea 0%, #764ba2 100%);",
  "            color: white;",
  "            padding: 30px;",
  "            border-radius: 10px;",
  "            margin-bottom: 30px;",
  "        \x7d",
  "        .header h1 \x7b",
  "            margin: 0;",
  "            font-size: 2em;",
  "        \x7d",
  "        .meta \x7b",
  "            opacity: 0.9;",
  "            margin-top: 10px;",
  "        \x7d",
  "        .release-date \x7b",
  "            background: white;",
  "            border-radius: 8px;",
  "            padding: 20px;",
  "            margin-bottom: 20px;",
  "            box-shadow: 0 2px 4px rgba(0,0,0,0.1);",
  "        \x7d",
  "        .release-date h2 \x7b",
  "            color: #333;",
  "            margin-top: 0;",
  "            border-bottom: 2px solid #667eea;",
  "            padding-bottom: 10px;",
  "        \x7d",
  "        .release-item \x7b",
  "            margin: 15px 0;",
  "            padding: 10px;",
  "            background: #f9f9f9;",
  "            border-left: 4px solid #ccc;",
  "            border-radius: 4px;",
  "        \x7d",
  "        .release-item.ga \x7b border-left-color: #4CAF50; \x7d",
  "        .release-item.publicpreview \x7b border-left-color: #FF9800; \x7d",
  "        .release-item.change \x7b border-left-color: #2196F3; \x7d",
  "        .release-item.announcement \x7b border-left-color: #9C27B0; \x7d",
  "        .release-item.breaking \x7b border-left-color: #f44336; \x7d",
  "        .release-item.deprecated \x7b border-left-color: #f44336; \x7d",
  "        .release-item.fixed \x7b border-left-color: #00BCD4; \x7d",
  "        .release-item.update \x7b border-left-color: #795548; \x7d",
  "        .release-item.libraries \x7b border-left-color: #607D8B; \x7d",
  "        .release-item.security \x7b border-left-color: #E91E63; \x7d",
  "        .release-item.issue \x7b border-left-color: #ffc107; \x7d",
  "        .category \x7b",
  "            display: inline-block;",
  "            padding: 2px 8px;",
  "            border-radius: 3px;",
  "            font-size: 0.85em;",
  "            font-weight: bold;",
  "            margin-right: 10px;",
  "        \x7d",
  "        .category.ga \x7b background: #4CAF50; color: white; \x7d",
  "        .category.publicpreview \x7b background: #FF9800; color: white; \x7d",
  "        .category.change \x7b background: #2196F3; color: white; \x7d",
  "        .category.announcement \x7b background: #9C27B0; color: white; \x7d",
  "        .category.breaking \x7b background: #E91E63; color: white; \x7d",
  "        .category.deprecated \x7b background: #f44336; color: white; \x7d",
  "        .category.fixed \x7b background: #00BCD4; color: white; \x7d",
  "        .category.update \x7b background: #795548; color: white; \x7d",
  "        .category.libraries \x7b background: #607D8B; color: white; \x7d",
  "        .category.security \x7b background: #E91E63; color: white; \x7d",
  "        .category.issue \x7b background: #ffc107; color: white; \x7d",
  "        .stats \x7b",
  "            background: white;",
  "            border-radius: 8px;",
  "            padding: 20px;",
  "            margin-top: 30px;",
  "            box-shadow: 0 2px 4px rgba(0,0,0,0.1);",
  "        \x7d",
  "        .stats h2 \x7b",
  "            color: #333;",
  "            margin-top: 0;",
  "        \x7d",
  "        a \x7b",
  "            color: #667eea;",
  "            text-decoration: none;",
  "        \x7d",
  "        a:hover \x7b",
  "            text-decoration: underline;",
  "        \x7d",
  "        .source-link \x7b",
  "            margin-top: 20px;",
  "            text-align: center;",
  "        \x7d",
  "        .item-source \x7b",
  "            font-size: 0.8em;",
  "            margin-top: 5px;",
  "            opacity: 0.7;",
  "        \x7d",
  "        .no-results \x7b",
  "            background: #fff3cd;",
  "            border: 1px solid #ffc107;",
  "            border-radius: 5px;",
  "            padding: 20px;",
  "            margin: 20px 0;",
  "            text-align: center;",
  "        \x7d",
  "    </style>",
  "</head>",
  "<body>"
 ]

/-- Lines of one rendered item in the HTML format: the category chip and
the raw markup payload inserted verbatim. -/
def htmlItemLines (it : ReleaseItem) : List String :=
  let categoryClass := strReplace it.category "-" ""
  ["        <div class=\"release-item " ++ categoryClass ++ "\">",
   "            <span class=\"category " ++ categoryClass ++ "\">" ++
     strUpper (strReplace it.category "-" " ") ++ "</span>",
   "            " ++ it.text,
   "        </div>"]

/-- Lines of one rendered group in the HTML format. -/
def htmlGroupLines (g : ReleaseGroup) : List String :=
  "    <div class=\"release-date\">" ::
  ("        <h2>" ++ g.dateStr ++ "</h2>") ::
  ((g.items.map htmlItemLines).flatten ++ ["    </div>"])

/-- Display name of a category in the HTML statistics breakdown: the
title-cased dash-to-space form, with the three fixed overrides of the
source. -/
def htmlDisplayName (cat : String) : String :=
  let d := strTitle (strReplace cat "-" " ")
  if cat = "ga" then "GA (Generally Available)"
  else if cat = "public-preview" then "Public Preview"
  else if cat = "breaking" then "Breaking"
  else d

/-- Category breakdown block of the HTML statistics, present only when
there are counted items. -/
def htmlBreakdownLines (rs : List ReleaseGroup) : List String :=
  let counts := sortCountsDesc (categoryCounts rs)
  if counts.isEmpty then []
  else
    "        <h3>Items by Category</h3>" :: "        <ul>" ::
      (counts.map (fun kc =>
        "            <li><strong>" ++ htmlDisplayName kc.1 ++ ":</strong> " ++
          toString kc.2 ++ "</li>") ++ ["        </ul>"])

/-- Model of format-underscore-html as its list of output lines, or the
ValueError the source raises when a nonempty collection has no present
date (min over an empty generator). -/
def format_html_lines (generatedStr todayStr url : String) (months cutoff : Int)
    (releases : List ReleaseGroup) : Except String (List String) :=
  let rs := sortReleasesDesc releases
  let top := htmlHeadLines ++
    ["    <div class=\"header\">",
     "        <h1>Release Notes Summary</h1>",
     "        <div class=\"meta\">",
     "            <p>Generated: " ++ generatedStr ++ "</p>",
     "            <p>Source: <a href=\"" ++ url ++
       "\" style=\"color: white; text-decoration: underline;\">" ++ url ++ "</a></p>",
     "            <p>Time range: Last " ++ toString months ++ " months</p>",
     "        </div>",
     "    </div>"]
  let statsHead :=
    ["    <div class=\"stats\">",
     "        <h2>Summary Statistics</h2>",
     "        <p><strong>Total Releases:</strong> " ++ toString rs.length ++ "</p>",
     "        <p><strong>Total Items:</strong> " ++
       toString ((rs.map (fun g => g.items.length)).sum) ++ "</p>"]
  let closers :=
    ["    </div>",
     "    <div class=\"source-link\">",
     "        <a href=\"" ++ url ++ "\" target=\"_blank\">View Full Release Notes</a>",
     "    </div>",
     "</body>",
     "</html>"]
  if rs.isEmpty then
    Except.ok (top ++
      ["    <div class=\"no-results\">",
       "        <h2>No Release Notes Found</h2>",
       "        <p>No release notes were found in the specified time range.</p>",
       "        <p>This could be due to:</p>",
       "        <ul style=\"text-align: left; display: inline-block;\">",
       "            <li>No releases in the past " ++ toString months ++ " months</li>",
       "            <li>Different page structure than expected</li>",
       "            <li>Content loaded dynamically via JavaScript</li>",
       "        </ul>",
       "    </div>"] ++
      statsHead ++
      ["        <p><strong>Search Range:</strong> " ++ ordDateStr cutoff ++ " to " ++
        todayStr ++ "</p>"] ++
      closers)
  else
    match rs.filterMap (fun g => g.date) with
    | [] => Except.error "ValueError: min() arg is an empty sequence"
    | d :: ds =>
      Except.ok (top ++ (rs.map htmlGroupLines).flatten ++ statsHead ++
        ["        <p><strong>Date Range:</strong> " ++ ordDateStr (ds.foldl min d) ++
          " to " ++ ordDateStr (ds.foldl max d) ++ "</p>"] ++
        htmlBreakdownLines rs ++ closers)

/-- Model of format-underscore-html: the newline join of its lines, or
the ValueError of the degenerate nonempty undated case. -/
def format_html (generatedStr todayStr url : String) (months cutoff : Int)
    (releases : List ReleaseGroup) : Except String String :=
  (format_html_lines generatedStr todayStr url months cutoff releases).map
    (fun ls => strJoin "\n" ls)


/-- Exit status of main around output delivery: with an output file, a
write failure exits one; in every other case main falls through and the
process exits zero, whatever the scrape produced. -/
def mainExitCode (toFile : Bool) (writeOk : Bool) : Nat :=
  if toFile ∧ ¬ writeOk then 1 else 0

/-- Header tag names of the google-cloud platform profile. -/
def googleCloudHeaders : List String := ["h2", "h3"]


/-!
Concrete documents and elements used to evaluate the definitions at
specific inputs.
-/

/-- Content area with two role-marked divs whose flattened texts are
identical while their markup differs in the class attribute, each
preceded by a dated text sibling. -/
def sampleUnstructuredDoc : Node :=
  .tag "section" [] none
    [.text "January 15, 2024",
     .tag "div" ["release-feature"] none [.text "Same visible text here OK"],
     .text "January 16, 2024",
     .tag "div" ["release-changed"] none [.text "Same visible text here OK"]]

/-- Feature-role element whose text carries the preview marker in upper
case. -/
def upperPreviewFeature : Node :=
  .tag "div" ["release-feature"] none [.text "Cloud Run jobs (PREVIEW) rollout"]

/-- Role-marked sibling whose stripped text is nonempty but not longer
than ten characters. -/
def shortRoleDiv : Node := .tag "div" ["release-feature"] none [.text "Short"]

/-- Role-marked sibling whose stripped text is longer than ten
characters. -/
def longRoleDiv : Node :=
  .tag "div" ["release-feature"] none [.text "A sufficiently long note"]

/-- List sibling with two structurally identical entries. -/
def dupEntryList : Node :=
  .tag "ul" [] none
    [.tag "li" [] none [.text "Same entry text"],
     .tag "li" [] none [.text "Same entry text"]]

/-- Empty content area (no headers, no text). -/
def emptyContentArea : Node := .tag "main" [] none []

/-!
Helper lemmas about the embedded definitions.
-/

/-- The sort-key comparison is total. -/
theorem dateKeyLE_total (x y : Option Int) : dateKeyLE x y = true ∨ dateKeyLE y x = true := by
  cases x <;> cases y <;> simp [dateKeyLE] <;> omega

/-- The sort-key comparison is transitive. -/
theorem dateKeyLE_trans (x y z : Option Int) (h1 : dateKeyLE x y = true)
    (h2 : dateKeyLE y z = true) : dateKeyLE x z = true := by
  cases x <;> cases y <;> cases z <;> simp_all [dateKeyLE] <;> omega

/-- Totality of the descending group comparison. -/
theorem groupBefore_total (a b : ReleaseGroup) : groupBefore a b = true ∨ groupBefore b a = true :=
  (dateKeyLE_total (sortKey b) (sortKey a)).imp id id

/-- Transitivity of the descending group comparison. -/
theorem groupBefore_trans (a b c : ReleaseGroup) (h1 : groupBefore a b = true)
    (h2 : groupBefore b c = true) : groupBefore a c = true :=
  dateKeyLE_trans (sortKey c) (sortKey b) (sortKey a) h2 h1

/-- Membership is preserved by the insertion step of the sort. -/
theorem mem_insertDesc (a g : ReleaseGroup) (l : List ReleaseGroup) :
    a ∈ insertDesc g l ↔ a = g ∨ a ∈ l := by
  induction l with
  | nil => simp [insertDesc]
  | cons hd tl ih =>
    simp only [insertDesc]
    split
    · simp [List.mem_cons]
    · simp only [List.mem_cons, ih]
      tauto

/-- Membership is preserved by the descending sort. -/
theorem mem_sortReleasesDesc (a : ReleaseGroup) (l : List ReleaseGroup) :
    a ∈ sortReleasesDesc l ↔ a ∈ l := by
  induction l with
  | nil => simp [sortReleasesDesc]
  | cons hd tl ih =>
    simp only [sortReleasesDesc, List.foldr_cons] at *
    rw [mem_insertDesc, ih, List.mem_cons]

/-- The insertion step preserves the descending pairwise order. -/
theorem pairwise_insertDesc (g : ReleaseGroup) (l : List ReleaseGroup)
    (h : List.Pairwise (fun a b => groupBefore a b = true) l) :
    List.Pairwise (fun a b => groupBefore a b = true) (insertDesc g l) := by
  induction l with
  | nil => simp [insertDesc]
  | cons hd tl ih =>
    rw [List.pairwise_cons] at h
    obtain ⟨hhd, htl⟩ := h
    simp only [insertDesc]
    split
    case isTrue hb =>
      rw [List.pairwise_cons]
      refine ⟨fun x hx => ?_, ?_⟩
      · rcases List.mem_cons.mp hx with rfl | hx2
        · exact hb
        · exact groupBefore_trans g hd x hb (hhd x hx2)
      · rw [List.pairwise_cons]
        exact ⟨hhd, htl⟩
    case isFalse hb =>
      rw [List.pairwise_cons]
      refine ⟨fun x hx => ?_, ih htl⟩
      rcases (mem_insertDesc x g tl).mp hx with rfl | hx2
      · rcases groupBefore_total x hd with hgb | hgb
        · exact absurd hgb hb
        · exact hgb
      · exact hhd x hx2

/-- The descending sort yields a pairwise-descending list. -/
theorem pairwise_sortReleasesDesc (l : List ReleaseGroup) :
    List.Pairwise (fun a b => groupBefore a b = true) (sortReleasesDesc l) := by
  induction l with
  | nil => simp [sortReleasesDesc]
  | cons hd tl ih =>
    simp only [sortReleasesDesc, List.foldr_cons] at *
    exact pairwise_insertDesc hd _ ih

/-- Appending one group appends its item payloads. -/
theorem allPayloads_append (acc : List ReleaseGroup) (g : ReleaseGroup) :
    allPayloads (acc ++ [g]) = allPayloads acc ++ g.items.map ReleaseItem.text := by
  simp [allPayloads]

/-- One pass-A step preserves distinctness of the collected raw payloads:
the appended payload passed the duplicate check, everything else leaves
the collection unchanged. -/
theorem passAEmit_nodup (cutoff : Int) (url : String) (pv : Option Node) (pr dv : Node)
    (nx : Option Node) (acc : List ReleaseGroup) (h : (allPayloads acc).Nodup) :
    (allPayloads (passAEmit cutoff url (pv, pr, dv, nx) acc)).Nodup := by
  simp only [passAEmit]
  split
  · exact h
  · split
    · split
      · split
        · exact h
        case isFalse hdup =>
          rw [allPayloads_append]
          rw [List.nodup_append]
          refine ⟨h, by simp, ?_⟩
          intro a ha hb
          simp only [List.map_cons, List.map_nil, List.mem_singleton] at hb
          subst hb
          exact hdup (by simpa using List.elem_eq_true_of_mem ha)
      · exact h
    · exact h

/-- Folding pass-A steps over the role-div occurrences preserves payload
distinctness. -/
theorem passAFold_nodup (cutoff : Int) (url : String)
    (ctxs : List (Option Node × Node × Node × Option Node)) :
    ∀ acc : List ReleaseGroup, (allPayloads acc).Nodup →
      (allPayloads (ctxs.foldl (fun a ctx => passAEmit cutoff url ctx a) acc)).Nodup := by
  induction ctxs with
  | nil => intro acc h; simpa using h
  | cons c cs ih =>
    intro acc h
    simp only [List.foldl_cons]
    exact ih _ (passAEmit_nodup cutoff url c.1 c.2.1 c.2.2.1 c.2.2.2 acc h)

/-- Pass A preserves payload distinctness. -/
theorem passA_nodup (cutoff : Int) (url : String) (doc : Node) (acc : List ReleaseGroup)
    (h : (allPayloads acc).Nodup) : (allPayloads (passA cutoff url doc acc)).Nodup :=
  passAFold_nodup cutoff url (roleDivsN doc) acc h

/-- Pass B never changes the collection when it finishes without raising. -/
theorem passB_ok (cutoff : Int) (doc : Node) (acc rs : List ReleaseGroup)
    (h : passB cutoff doc acc = Except.ok rs) : rs = acc := by
  unfold passB at h
  split at h
  · exact absurd h (by simp)
  · cases h; rfl

/-- The keyword cascade coincides with the ordered rule table. -/
theorem keywordCascade_eq_rules (t : String) : keywordCascade t = firstRuleHit keywordRules t := rfl

/-- An ordered rule table with no hit falls through to the default. -/
theorem firstRuleHit_default (rules : List (List String × String)) (t : String)
    (h : ∀ r ∈ rules, containsAny r.1 t = false) : firstRuleHit rules t = "update" := by
  induction rules with
  | nil => rfl
  | cons r rest ih =>
    simp only [firstRuleHit]
    rw [h r (List.mem_cons_self r rest)]
    simp only [Bool.false_eq_true, if_false]
    exact ih (fun x hx => h x (List.mem_cons_of_mem r hx))

/-- Survival condition of the retention filter, unfolded. -/
theorem keepRelease_iff (c : Int) (g : ReleaseGroup) :
    keepRelease c g = true ↔ ∃ d, g.date = some d ∧ c ≤ d := by
  cases hd : g.date <;> simp [keepRelease, hd]

/-!
Claim theorems.
-/

/-- Claim C1: for every input string, parse_date tries the calendar
formats in the fixed order full-month-name, abbreviated-month-name, ISO,
US month-day-year slash, then day-month-year slash, returns the date
produced by the first format that parses, and returns absent when none
parse (it never raises, being a total function by construction); in
particular 13/02/2024 fails the US slash format and parses via the
day-first format to 2024-02-13, while 01/15/2024 parses via the US
format to 2024-01-15. -/
theorem parse_date_format_order :
    (∀ s d, strptimeFullMonth (strTrim s) = some d → parse_date s = some d) ∧
    (∀ s d, strptimeFullMonth (strTrim s) = none →
      strptimeAbbrMonth (strTrim s) = some d → parse_date s = some d) ∧
    (∀ s d, strptimeFullMonth (strTrim s) = none → strptimeAbbrMonth (strTrim s) = none →
      strptimeIso (strTrim s) = some d → parse_date s = some d) ∧
    (∀ s d, strptimeFullMonth (strTrim s) = none → strptimeAbbrMonth (strTrim s) = none →
      strptimeIso (strTrim s) = none → strptimeUsSlash (strTrim s) = some d →
      parse_date s = some d) ∧
    (∀ s d, strptimeFullMonth (strTrim s) = none → strptimeAbbrMonth (strTrim s) = none →
      strptimeIso (strTrim s) = none → strptimeUsSlash (strTrim s) = none →
      strptimeDayFirstSlash (strTrim s) = some d → parse_date s = some d) ∧
    (∀ s, strptimeFullMonth (strTrim s) = none → strptimeAbbrMonth (strTrim s) = none →
      strptimeIso (strTrim s) = none → strptimeUsSlash (strTrim s) = none →
      strptimeDayFirstSlash (strTrim s) = none → parse_date s = none) ∧
    strptimeUsSlash "13/02/2024" = none ∧
    strptimeDayFirstSlash "13/02/2024" = some ⟨2024, 2, 13⟩ ∧
    parse_date "13/02/2024" = some ⟨2024, 2, 13⟩ ∧
    strptimeUsSlash "01/15/2024" = some ⟨2024, 1, 15⟩ ∧
    parse_date "01/15/2024" = some ⟨2024, 1, 15⟩ := by
  refine ⟨?_, ?_, ?_, ?_, ?_, ?_, by decide, by decide, by decide, by decide, by decide⟩
  · intro s d h; simp [parse_date, h]
  · intro s d h1 h2; simp [parse_date, h1, h2]
  · intro s d h1 h2 h3; simp [parse_date, h1, h2, h3]
  · intro s d h1 h2 h3 h4; simp [parse_date, h1, h2, h3, h4]
  · intro s d h1 h2 h3 h4 h5; simp [parse_date, h1, h2, h3, h4, h5]
  · intro s h1 h2 h3 h4 h5; simp [parse_date, h1, h2, h3, h4, h5]

/-- Witness for claim C1: the day-first conjunct applied at the concrete
input 13/02/2024. -/
theorem parse_date_format_order_witness : parse_date "13/02/2024" = some ⟨2024, 2, 13⟩ :=
  parse_date_format_order.2.2.2.2.1 "13/02/2024" ⟨2024, 2, 13⟩
    (by decide) (by decide) (by decide) (by decide) (by decide)

/-- Claim C2: the categorizer is deterministic (it is a pure function of
the structural hint and the text), evaluates the structural-hint rules
before any keyword rule, and when no structural rule fires it evaluates
the keyword cascade over the lower-cased text as the ordered rule table
security, breaking, preview, ga, deprecated, fixed, issue, change,
announcement, libraries, with default category update when nothing
matches; consequently a nonempty text containing a security term is
categorized security whatever preview terms it also contains. -/
theorem categorize_priority_cascade :
    (∀ e t c, structuralCat e = some c → categorize_item (some e) t = c) ∧
    (∀ e t, structuralCat e = none → t ≠ "" →
      categorize_item (some e) (some t) = firstRuleHit keywordRules (strLower t)) ∧
    (∀ t, t ≠ "" → categorize_item none (some t) = firstRuleHit keywordRules (strLower t)) ∧
    (∀ t, t ≠ "" → (∀ r ∈ keywordRules, containsAny r.1 (strLower t) = false) →
      categorize_item none (some t) = "update") ∧
    (∀ t, t ≠ "" → containsAny securityKeywords (strLower t) = true →
      containsAny previewKeywords (strLower t) = true →
      categorize_item none (some t) = "security") := by
  refine ⟨?_, ?_, ?_, ?_, ?_⟩
  · intro e t c h; simp [categorize_item, h]
  · intro e t hc ht; simp [categorize_item, hc, ht, keywordCascade_eq_rules]
  · intro t ht; simp [categorize_item, ht, keywordCascade_eq_rules]
  · intro t ht hnone
    simp only [categorize_item, Option.bind, ht, if_neg ht]
    exact firstRuleHit_default keywordRules (strLower t) hnone
  · intro t ht hsec hprev
    simp [categorize_item, ht, keywordCascade, hsec]

/-- Witness for claim C2: the security-over-preview conjunct applied at a
concrete text containing terms of both kinds. -/
theorem categorize_priority_cascade_witness :
    categorize_item none (some "Critical security note, now in preview") = "security" :=
  categorize_priority_cascade.2.2.2.2 "Critical security note, now in preview"
    (by decide) (by decide) (by decide)

/-- Claim C3: the unstructured extractor runs if and only if the
structured extractor produced zero release groups (the boolean component
of the extraction phase records whether the fallback ran). -/
theorem fallback_gating (hdrs : List String) (url : String) (cutoff : Int) (doc : Node) :
    (extractionPhases hdrs url cutoff doc).2 = true ↔
      parse_structured_releases hdrs url doc = [] := by
  by_cases hs : (parse_structured_releases hdrs url doc).isEmpty
  · have hnil := List.isEmpty_iff.mp hs
    simp [extractionPhases, hs, hnil]
  · rw [Bool.not_eq_true] at hs
    have hne := List.isEmpty_eq_false.mp hs
    simp [extractionPhases, hs, hne]

/-- Witness for claim C3: on an empty content area the structured
extractor yields nothing and the fallback runs. -/
theorem fallback_gating_witness :
    (extractionPhases googleCloudHeaders "u" 0 emptyContentArea).2 = true :=
  (fallback_gating googleCloudHeaders "u" 0 emptyContentArea).mpr (by decide)

/-- Claim C4: with the cutoff defined as the current instant minus
months times thirty days, a release group survives the final filter if
and only if its parsed date is present and on or after the cutoff; a
group dated exactly at the cutoff is retained and a group dated one day
before the cutoff is excluded. -/
theorem retention_filter_boundary :
    (∀ now months : Int, cutoffDate now months = now - months * 30) ∧
    (∀ (c : Int) (gs : List ReleaseGroup) (g : ReleaseGroup),
      g ∈ gs.filter (keepRelease c) ↔ g ∈ gs ∧ ∃ d, g.date = some d ∧ c ≤ d) ∧
    (∀ (now months : Int) (gs : List ReleaseGroup) (g : ReleaseGroup), g ∈ gs →
      g.date = some (cutoffDate now months) →
      g ∈ gs.filter (keepRelease (cutoffDate now months))) ∧
    (∀ (now months : Int) (gs : List ReleaseGroup) (g : ReleaseGroup),
      g.date = some (cutoffDate now months - 1) →
      g ∉ gs.filter (keepRelease (cutoffDate now months))) := by
  have hiff : ∀ (c : Int) (gs : List ReleaseGroup) (g : ReleaseGroup),
      g ∈ gs.filter (keepRelease c) ↔ g ∈ gs ∧ ∃ d, g.date = some d ∧ c ≤ d := by
    intro c gs g
    rw [List.mem_filter, keepRelease_iff]
  refine ⟨fun _ _ => rfl, hiff, ?_, ?_⟩
  · intro now months gs g hmem hdate
    exact (hiff _ gs g).mpr ⟨hmem, cutoffDate now months, hdate, le_refl _⟩
  · intro now months gs g hdate hmem
    obtain ⟨-, d, hd, hle⟩ := (hiff _ gs g).mp hmem
    rw [hdate] at hd
    cases hd
    omega

/-- Witness for claim C4: boundary retention applied at a concrete
cutoff of forty with a group dated exactly forty, and the day-before
group shown excluded by the same filter. -/
theorem retention_filter_boundary_witness :
    (⟨some 40, "b", [], "u"⟩ : ReleaseGroup) ∈
      [(⟨some 40, "b", [], "u"⟩ : ReleaseGroup)].filter (keepRelease (cutoffDate 100 2)) ∧
    (⟨some 39, "b", [], "u"⟩ : ReleaseGroup) ∉
      [(⟨some 39, "b", [], "u"⟩ : ReleaseGroup)].filter (keepRelease (cutoffDate 100 2)) :=
  ⟨retention_filter_boundary.2.2.1 100 2 _ _ (by decide) (by decide),
   retention_filter_boundary.2.2.2 100 2 _ _ (by decide)⟩

/-- Claim C5: the group order every renderer iterates is the descending
sort by parsed date performed before rendering, so for a filtered
collection (every date present) the rendered groups are non-increasing
by parsed date, the sorted output has exactly the input groups, and no
group with an absent date appears. -/
theorem render_sort_descending (l : List ReleaseGroup) (hl : ∀ g ∈ l, g.date.isSome) :
    List.Pairwise (fun a b => ∀ da db, a.date = some da → b.date = some db → db ≤ da)
      (sortReleasesDesc l) ∧
    (∀ g, g ∈ sortReleasesDesc l ↔ g ∈ l) ∧
    (∀ g ∈ sortReleasesDesc l, g.date.isSome) := by
  refine ⟨?_, fun g => mem_sortReleasesDesc g l,
    fun g hg => hl g ((mem_sortReleasesDesc g l).mp hg)⟩
  refine (pairwise_sortReleasesDesc l).imp ?_
  intro a b hab
  intro da db hda hdb
  simp only [groupBefore, sortKey, hda, hdb, dateKeyLE, decide_eq_true_eq] at hab
  exact hab

/-- Witness for claim C5: the sort applied to a concrete two-group
collection with both dates present. -/
theorem render_sort_descending_witness :
    (∀ g ∈ [(⟨some 1, "a", [], "u"⟩ : ReleaseGroup), ⟨some 5, "b", [], "u"⟩], g.date.isSome) ∧
    (∀ g, g ∈ sortReleasesDesc [(⟨some 1, "a", [], "u"⟩ : ReleaseGroup), ⟨some 5, "b", [], "u"⟩] ↔
      g ∈ [(⟨some 1, "a", [], "u"⟩ : ReleaseGroup), ⟨some 5, "b", [], "u"⟩]) :=
  ⟨by decide, (render_sort_descending _ (by decide)).2.1⟩

/-- Extraction phase on an empty structured result: the fallback runs on
the empty collection. -/
theorem extractionPhases_of_empty (hdrs : List String) (url : String) (cutoff : Int) (doc : Node)
    (hs : parse_structured_releases hdrs url doc = []) :
    extractionPhases hdrs url cutoff doc =
      (parse_unstructured_releases cutoff url doc [], true) := by
  simp [extractionPhases, hs]

/-- Extraction phase on a nonempty structured result: the fallback does
not run. -/
theorem extractionPhases_of_nonempty (hdrs : List String) (url : String) (cutoff : Int)
    (doc : Node) (hs : parse_structured_releases hdrs url doc ≠ []) :
    extractionPhases hdrs url cutoff doc =
      (Except.ok (parse_structured_releases hdrs url doc), false) := by
  simp [extractionPhases, List.isEmpty_eq_false.mpr hs]

/-- Claim C6: whenever the unstructured extractor ran and the run
finished, no two items of the resulting collection share an identical
raw payload; a pass-A candidate whose raw payload equals the payload of
any item already collected is not emitted; and the comparison is on raw
markup, not normalized text: in the sample document two fragments with
identical flattened text but different class attributes are both
emitted, with distinct payloads whose extracted texts coincide. -/
theorem unstructured_dedup_raw_payload :
    (∀ (hdrs : List String) (url : String) (cutoff : Int) (doc : Node)
      (rs : List ReleaseGroup), (extractionPhases hdrs url cutoff doc).2 = true →
      (extractionPhases hdrs url cutoff doc).1 = Except.ok rs → (allPayloads rs).Nodup) ∧
    (∀ (cutoff : Int) (url : String) (pv : Option Node) (pr dv : Node) (nx : Option Node)
      (acc : List ReleaseGroup), serializeN dv ∈ allPayloads acc →
      passAEmit cutoff url (pv, pr, dv, nx) acc = acc) ∧
    allPayloads (passA 0 "u" sampleUnstructuredDoc []) =
      ["<div class=\"release-feature\">Same visible text here OK</div>",
       "<div class=\"release-changed\">Same visible text here OK</div>"] ∧
    extractText "<div class=\"release-feature\">Same visible text here OK</div>" =
      extractText "<div class=\"release-changed\">Same visible text here OK</div>" ∧
    "<div class=\"release-feature\">Same visible text here OK</div>" ≠
      "<div class=\"release-changed\">Same visible text here OK</div>" := by
  refine ⟨?_, ?_, by decide, by decide, by decide⟩
  · intro hdrs url cutoff doc rs h2 h1
    by_cases hs : parse_structured_releases hdrs url doc = []
    · rw [extractionPhases_of_empty hdrs url cutoff doc hs] at h1
      simp only at h1
      unfold parse_unstructured_releases at h1
      have hrs := passB_ok cutoff doc _ rs h1
      rw [hrs]
      exact passA_nodup cutoff url doc [] (by simp [allPayloads])
    · rw [extractionPhases_of_nonempty hdrs url cutoff doc hs] at h2
      simp at h2
  · intro cutoff url pv pr dv nx acc h
    simp only [passAEmit]
    split
    · rfl
    · split
      · split
        · split
          · rfl
          case isFalse hdup =>
            exact absurd (by simpa using List.elem_eq_true_of_mem h) hdup
        · rfl
      · rfl

/-- Witness for claim C6: the run-level distinctness conjunct applied to
the empty content area, where the fallback runs and finishes with the
empty collection. -/
theorem unstructured_dedup_raw_payload_witness :
    (extractionPhases googleCloudHeaders "u" 0 emptyContentArea).2 = true ∧
    (extractionPhases googleCloudHeaders "u" 0 emptyContentArea).1 = Except.ok [] ∧
    (allPayloads ([] : List ReleaseGroup)).Nodup :=
  ⟨rfl, rfl,
   unstructured_dedup_raw_payload.1 googleCloudHeaders "u" 0 emptyContentArea [] rfl rfl⟩

/-- Claim C7 counterexample: a feature-role element whose flattened text
contains the preview marker in upper case (a case-insensitive match)
is categorized ga, not public-preview, so the marker test of the source
is not case-insensitive. -/
theorem feature_preview_case_counterexample :
    strContains (strLower (getTextN upperPreviewFeature)) "(preview)" = true ∧
    categorize_item (some upperPreviewFeature) none = "ga" := by decide

/-- Claim C7 amended: for an element whose structural hint indicates the
feature role, the category is public-preview exactly when the flattened
text contains one of the two literal spellings of the preview marker
checked by the source (capitalized or lower-case), and ga otherwise. -/
theorem feature_preview_two_spellings (e : Node) (t0 : Option String)
    (h : strContains (classStrOf e) "release-feature" = true) :
    categorize_item (some e) t0 =
      (if strContains (getTextN e) "(Preview)" || strContains (getTextN e) "(preview)" then
        "public-preview"
      else "ga") := by
  by_cases hp : strContains (getTextN e) "(Preview)" = true ∨
      strContains (getTextN e) "(preview)" = true
  · simp [categorize_item, structuralCat, h, hp]
  · simp [categorize_item, structuralCat, h, hp]

/-- Witness for claim C7: the amended statement applied at the concrete
upper-case element. -/
theorem feature_preview_two_spellings_witness :
    categorize_item (some upperPreviewFeature) none =
      (if strContains (getTextN upperPreviewFeature) "(Preview)" ||
          strContains (getTextN upperPreviewFeature) "(preview)" then
        "public-preview"
      else "ga") :=
  feature_preview_two_spellings upperPreviewFeature none (by decide)

/-- Claim C8 counterexample: a sibling element bearing a release-role
marker with nonempty flattened text is not converted into any
ReleaseItem when its text has at most ten characters, so the conversion
does have a further precondition on the element. -/
theorem role_item_length_gate_counterexample :
    hasRoleClass shortRoleDiv = true ∧ getTextN shortRoleDiv ≠ "" ∧
    walkItems googleCloudHeaders [shortRoleDiv] = [] := by decide

/-- Claim C8 amended: during the sibling walk, a sibling element bearing
a release-role marker is converted into exactly one ReleaseItem, with
the element driving the categorizer's structural hint, provided its
flattened stripped text is longer than ten characters. -/
theorem role_item_requires_min_length (hdrs : List String) (nm : String) (cls : List String)
    (href : Option String) (children rest : List Node)
    (hrole : hasRoleClass (.tag nm cls href children) = true)
    (hhdr : hdrs.contains nm = false)
    (hlen : (getTextN (.tag nm cls href children)).length > 10) :
    walkItems hdrs (.tag nm cls href children :: rest) =
      ⟨serializeN (.tag nm cls href children),
       categorize_item (some (.tag nm cls href children))
         (some (getTextN (.tag nm cls href children))),
       linksN (.tag nm cls href children)⟩ :: walkItems hdrs rest := by
  have hne : getTextN (.tag nm cls href children) ≠ "" := by
    intro h0
    rw [h0] at hlen
    simp at hlen
  have hnm : nm ∉ hdrs := by simpa using hhdr
  simp [walkItems, hnm, siblingItems, hrole, if_pos (And.intro hne hlen)]

/-- Witness for claim C8: the amended statement applied at a concrete
role-marked div with text longer than ten characters. -/
theorem role_item_requires_min_length_witness :
    walkItems googleCloudHeaders [longRoleDiv] =
      [⟨serializeN longRoleDiv,
        categorize_item (some longRoleDiv) (some (getTextN longRoleDiv)),
        linksN longRoleDiv⟩] :=
  role_item_requires_min_length googleCloudHeaders "div" ["release-feature"] none
    [.text "A sufficiently long note"] [] (by decide) (by decide) (by decide)

/-- Claim C9: on a transport error or any exception during parsing, the
scrape operation returns the empty collection (no partial results), each
of the four renderers still produces its no-results document for that
result (the no-results line for text and markdown, the no-results block
for HTML, and the empty releases array with zero statistics for JSON,
shown also as the complete serialized document at concrete metadata),
and the process exits zero whenever the output is delivered; a
file-write failure instead exits one. -/
theorem soft_failure_empty_render_exit (hdrs : List String) (url : String) (cutoff : Int)
    (msg nowStr todayStr cutoffIso : String) (months : Int) :
    scrape hdrs url cutoff (.transportError msg) = [] ∧
    scrape hdrs url cutoff (.parseFailure msg) = [] ∧
    "No releases found in the specified time range." ∈
      format_text_lines nowStr months (scrape hdrs url cutoff (.transportError msg)) ∧
    "No releases found in the specified time range." ∈
      format_text_lines nowStr months (scrape hdrs url cutoff (.parseFailure msg)) ∧
    "*No releases found in the specified time range.*" ∈
      format_markdown_lines nowStr url months (scrape hdrs url cutoff (.transportError msg)) ∧
    "*No releases found in the specified time range.*" ∈
      format_markdown_lines nowStr url months (scrape hdrs url cutoff (.parseFailure msg)) ∧
    (∃ ls, format_html_lines nowStr todayStr url months cutoff
        (scrape hdrs url cutoff (.transportError msg)) = Except.ok ls ∧
      "    <div class=\"no-results\">" ∈ ls ∧
      "        <h2>No Release Notes Found</h2>" ∈ ls) ∧
    (∃ ls, format_html_lines nowStr todayStr url months cutoff
        (scrape hdrs url cutoff (.parseFailure msg)) = Except.ok ls ∧
      "        <h2>No Release Notes Found</h2>" ∈ ls) ∧
    jsonField (format_json_value nowStr cutoffIso url months
      (scrape hdrs url cutoff (.transportError msg))) "releases" = some (JsonVal.jArr []) ∧
    jsonField (format_json_value nowStr cutoffIso url months
      (scrape hdrs url cutoff (.transportError msg))) "statistics" =
      some (JsonVal.jObj [("total_releases", JsonVal.jNum 0), ("total_items", JsonVal.jNum 0)]) ∧
    jsonField (format_json_value nowStr cutoffIso url months
      (scrape hdrs url cutoff (.parseFailure msg))) "releases" = some (JsonVal.jArr []) ∧
    format_json "G" "C" "u" 12 [] =
      "\x7b\n  \"metadata\": \x7b\n    \"source\": \"u\",\n    \"generated\": \"G\",\n    \"time_range_months\": 12,\n    \"cutoff_date\": \"C\"\n  \x7d,\n  \"statistics\": \x7b\n    \"total_releases\": 0,\n    \"total_items\": 0\n  \x7d,\n  \"releases\": []\n\x7d" ∧
    mainExitCode false true = 0 ∧ mainExitCode false false = 0 ∧
    mainExitCode true true = 0 ∧ mainExitCode true false = 1 := by
  refine ⟨rfl, rfl, ?_, ?_, ?_, ?_, ⟨_, rfl, ?_, ?_⟩, ⟨_, rfl, ?_⟩, by rfl, by rfl, by rfl,
    by rfl, by decide, by decide, by decide, by decide⟩ <;>
    simp [scrape, format_text_lines, format_markdown_lines, format_html_lines, htmlHeadLines]

/-- Claim C10 counterexample: one list sibling with two structurally
identical entries contributes two ReleaseItems with the same raw payload
to the group. -/
theorem list_branch_duplicate_payloads_counterexample :
    (walkItems googleCloudHeaders [dupEntryList]).map ReleaseItem.text =
      ["<li>Same entry text</li>", "<li>Same entry text</li>"] ∧
    ¬ ((walkItems googleCloudHeaders [dupEntryList]).map ReleaseItem.text).Nodup := by decide

/-- Claim C10 amended: every walked sibling is handled by at most one
branch; an element carrying a release-role class is processed only by
the role-marker branch, whose contribution is one item or none, so a
role-marked sibling contributes at most one ReleaseItem; only the list
branch can contribute several items, and identical list entries then
yield identical raw payloads. -/
theorem sibling_branch_exclusivity (nm : String) (cls : List String) (href : Option String)
    (children : List Node)
    (hrole : hasRoleClass (.tag nm cls href children) = true) :
    siblingItems (.tag nm cls href children) =
      (if getTextN (.tag nm cls href children) ≠ "" ∧
          (getTextN (.tag nm cls href children)).length > 10 then
        [⟨serializeN (.tag nm cls href children),
          categorize_item (some (.tag nm cls href children))
            (some (getTextN (.tag nm cls href children))),
          linksN (.tag nm cls href children)⟩]
      else []) ∧
    (siblingItems (.tag nm cls href children)).length ≤ 1 := by
  constructor
  · simp only [siblingItems, hrole, if_true]
  · simp only [siblingItems, hrole, if_true]
    split <;> simp

/-- Witness for claim C10: the amended statement applied at a concrete
role-marked div. -/
theorem sibling_branch_exclusivity_witness :
    siblingItems longRoleDiv =
      (if getTextN longRoleDiv ≠ "" ∧ (getTextN longRoleDiv).length > 10 then
        [⟨serializeN longRoleDiv,
          categorize_item (some longRoleDiv) (some (getTextN longRoleDiv)),
          linksN longRoleDiv⟩]
      else []) ∧
    (siblingItems longRoleDiv).length ≤ 1 :=
  sibling_branch_exclusivity "div" ["release-feature"] none [.text "A sufficiently long note"]
    (by decide)
